import Mathlib

/-!
Verification development for the opoint safefeed polling clients
(src/opoint/safefeed/sync.py and src/opoint/safefeed/aio.py).

Modelling choices:
* Python floats are idealised as real numbers; the integer fields that the
  code freely mixes into float arithmetic (document counts, the lastid
  cursor) are integers, cast to the reals where the code uses them in
  float expressions.  Python `x ** 0.5` on a nonnegative float is
  Real.sqrt.
* Python truthiness of a numeric value (used by the `or` / `and` chains
  in the source) is the test against 0; an absent optional value
  (None) is Option.none.
* A raw HTTP response body is modelled as Option FeedResponse: none is a
  body that the JSON decoder rejects (UnicodeDecodeError, JSONDecodeError,
  and for the aio client ContentTypeError - all three handlers return
  None without touching state); some data is a decoded body.  Keys that
  may be missing from the decoded dictionary are Option fields.
* datetime.datetime.now() readings are real-valued parameters of the
  step functions (the gate reading and the recorded request time are two
  separate readings, as in the source).
* An uncaught AttributeError (reading the never-initialised _last_num
  attribute through the is_behind property) is the error of an Except.
-/

namespace Safefeed

/-- The searchresult member of the decoded response body.  Each field is
optional because the code can receive a dictionary lacking the key. -/
structure SearchResult where
  search_start : Option ℤ
  documents : Option ℤ
  expected_rate : Option ℝ

/-- A decoded response body; the searchresult key itself may be missing. -/
structure FeedResponse where
  searchresult : Option SearchResult

/-- The mutable per-instance state of a client (both sync.py
SyncSafefeedClient and aio.py SafefeedClient carry exactly these fields;
key, timeout and base_url are never read by the logic the claims are
about).  last_num is Option: the _last_num attribute has a type
annotation but no value until the first successful ingest assigns it. -/
structure ClientState where
  interval : ℝ
  num_art : ℝ
  lastid : Option ℤ
  expected_rate : Option ℝ
  last_num : Option ℤ
  last_request_time : Option ℝ
  autoconfig : Bool

noncomputable section

/-- Python `x or y` for two numbers: x unless x is falsy (zero). -/
def pyOr (x y : ℝ) : ℝ := if x = 0 then y else x

/-- Python `x or y` where x is an optional number: y when x is None or
zero, x otherwise. -/
def pyOrO (x : Option ℝ) (y : ℝ) : ℝ :=
  match x with
  | none => y
  | some v => pyOr v y

/-- Python truthiness of an `int | None` value. -/
def truthyZ (x : Option ℤ) : Bool :=
  match x with
  | none => false
  | some a => a != 0

/-- Python truthiness of a `float | None` value. -/
def truthyR (x : Option ℝ) : Bool :=
  match x with
  | none => false
  | some v => decide (v ≠ 0)

/-- SyncSafefeedClient.__init__ (sync.py lines 50-68): defaults
interval=60, num_art=500; `if interval or num_art or expected_rate`
(truthiness, not an is-None test) disables autoconfig. -/
def init (interval : Option ℤ) (lastid : Option ℤ) (num_art : Option ℤ)
    (expected_rate : Option ℝ) : ClientState :=
  { interval := ((interval.getD 60 : ℤ) : ℝ)
    num_art := ((num_art.getD 500 : ℤ) : ℝ)
    lastid := lastid
    expected_rate := expected_rate
    last_num := none
    last_request_time := none
    autoconfig := !(truthyZ interval || truthyZ num_art || truthyR expected_rate) }

/-- The sleep target (sync.py lines 80-84): last request time plus
interval, or now itself when no request was made yet. -/
def target (s : ClientState) (now : ℝ) : ℝ :=
  match s.last_request_time with
  | some t => t + s.interval
  | none => now

/-- The gate (sync.py lines 79-90): sleep target-now seconds when now is
before the target and the client is not behind.  Evaluating is_behind
reads _last_num, which raises AttributeError when it was never assigned;
short-circuiting means this only happens when now < target. -/
def waitCheck (s : ClientState) (now : ℝ) : Except Unit ℝ :=
  if now < target s now then
    match s.last_num with
    | none => .error ()
    | some n => if (n : ℝ) > s.num_art * 0.95 then .ok 0 else .ok (target s now - now)
  else .ok 0

/-- The lastid wire parameter: a number or the sentinel question mark. -/
inductive LastidParam where
  | num (i : ℤ)
  | question
deriving DecidableEq

/-- `lastid or self.lastid` (sync.py line 99): the argument unless it is
falsy (None or 0), in which case the stored cursor. -/
def effLastid (arg stored : Option ℤ) : Option ℤ :=
  match arg with
  | none => stored
  | some a => if a = 0 then stored else some a

/-- The lastid query parameter actually sent (sync.py line 99):
`i if (i := lastid or self.lastid) is not None else "?"`. -/
def lastidParam (arg stored : Option ℤ) : LastidParam :=
  match effLastid arg stored with
  | some i => .num i
  | none => .question

/-- `size or self.num_art` (sync.py line 100): the num_art query
parameter sent. -/
def effSize (arg : Option ℤ) (stored : ℝ) : ℝ :=
  match arg with
  | none => stored
  | some a => if a = 0 then stored else (a : ℝ)

/-- The new expected_rate (sync.py lines 123-131):
0.9 * (self.expected_rate or 40) + 0.1 * (server expected_rate
or (documents and documents / self.interval or self.expected_rate or 40)),
with every `or`/`and` being Python truthiness on numbers. -/
def newRate (prev : Option ℝ) (interval : ℝ) (server : Option ℝ) (docs : ℤ) : ℝ :=
  0.9 * pyOrO prev 40 +
    0.1 * pyOrO server
      (pyOr (if docs = 0 then 0 else (docs : ℝ) / interval) (pyOrO prev 40))

/-- The ingest stage of get_articles (sync.py lines 104-148): decode
failure returns None with no state change; the try block then mutates
the state statement by statement until a KeyError, which is caught and
swallowed, after which the decoded data is returned regardless.
Statement order: lastid is assigned from searchresult.search_start
(KeyError if searchresult or search_start is missing, before any
mutation); _last_num is assigned searchresult.get(documents, 0); the
debug f-string then subscripts searchresult[documents] directly
(KeyError if documents is missing, after those two mutations); the
autoconfig update runs only when _autoconfig is set and the client is
not behind, where is_behind compares the just-assigned _last_num against
0.95 times the still-old num_art. -/
def ingest (s : ClientState) (body : Option FeedResponse) :
    ClientState × Option FeedResponse :=
  match body with
  | none => (s, none)
  | some data =>
    match data.searchresult with
    | none => (s, some data)
    | some sr =>
      match sr.search_start with
      | none => (s, some data)
      | some pos =>
        let s1 : ClientState :=
          { s with lastid := some pos, last_num := some (sr.documents.getD 0) }
        match sr.documents with
        | none => (s1, some data)
        | some docs =>
          if s1.autoconfig = true ∧ ¬((docs : ℝ) > s.num_art * 0.95) then
            let er := newRate s.expected_rate s.interval sr.expected_rate docs
            ({ s1 with expected_rate := some er,
                       interval := min (60 / Real.sqrt er) 900,
                       num_art := max (120 * Real.sqrt er) 50 }, some data)
          else (s1, some data)

/-- One full call of SyncSafefeedClient.get_articles (sync.py lines
75-148) given the two clock readings and the raw body the transport
returns: the gate (which can raise AttributeError), recording the
request time, the query parameters sent, then ingest.  The ok value is
(wait seconds, lastid parameter, num_art parameter, new state, returned
value). -/
def get_articles (s : ClientState) (now nowReq : ℝ) (argLastid argSize : Option ℤ)
    (body : Option FeedResponse) :
    Except Unit (ℝ × LastidParam × ℝ × ClientState × Option FeedResponse) :=
  match waitCheck s now with
  | .error e => .error e
  | .ok w =>
    let s1 : ClientState := { s with last_request_time := some nowReq }
    let r := ingest s1 body
    .ok (w, lastidParam argLastid s.lastid, effSize argSize s.num_art, r.1, r.2)

/-- Folding a sequence of response bodies through ingest. -/
def ingestAll (s : ClientState) (bodies : List (Option FeedResponse)) : ClientState :=
  bodies.foldl (fun st b => (ingest st b).1) s

end

namespace Async

noncomputable section

/-- aio.py SafefeedClient.__init__ (lines 37-56): identical fields and
identical truthiness test to the sync constructor. -/
def init (interval : Option ℤ) (lastid : Option ℤ) (num_art : Option ℤ)
    (expected_rate : Option ℝ) : ClientState :=
  { interval := ((interval.getD 60 : ℤ) : ℝ)
    num_art := ((num_art.getD 500 : ℤ) : ℝ)
    lastid := lastid
    expected_rate := expected_rate
    last_num := none
    last_request_time := none
    autoconfig := !(truthyZ interval || truthyZ num_art || truthyR expected_rate) }

/-- The gate as performed by _fetch_articles (aio.py lines 72-83). -/
def waitCheck (s : ClientState) (now : ℝ) : Except Unit ℝ :=
  if now < target s now then
    match s.last_num with
    | none => .error ()
    | some n => if (n : ℝ) > s.num_art * 0.95 then .ok 0 else .ok (target s now - now)
  else .ok 0

/-- The new expected_rate (aio.py lines 125-133), same expression as the
sync client. -/
def newRate (prev : Option ℝ) (interval : ℝ) (server : Option ℝ) (docs : ℤ) : ℝ :=
  0.9 * pyOrO prev 40 +
    0.1 * pyOrO server
      (pyOr (if docs = 0 then 0 else (docs : ℝ) / interval) (pyOrO prev 40))

/-- The ingest stage of the async get_articles (aio.py lines 102-150);
the extra ContentTypeError handler also returns None without touching
state, so it is covered by the undecodable-body case. -/
def ingest (s : ClientState) (body : Option FeedResponse) :
    ClientState × Option FeedResponse :=
  match body with
  | none => (s, none)
  | some data =>
    match data.searchresult with
    | none => (s, some data)
    | some sr =>
      match sr.search_start with
      | none => (s, some data)
      | some pos =>
        let s1 : ClientState :=
          { s with lastid := some pos, last_num := some (sr.documents.getD 0) }
        match sr.documents with
        | none => (s1, some data)
        | some docs =>
          if s1.autoconfig = true ∧ ¬((docs : ℝ) > s.num_art * 0.95) then
            let er := newRate s.expected_rate s.interval sr.expected_rate docs
            ({ s1 with expected_rate := some er,
                       interval := min (60 / Real.sqrt er) 900,
                       num_art := max (120 * Real.sqrt er) 50 }, some data)
          else (s1, some data)

/-- The wait-and-request stage _fetch_articles (aio.py lines 69-96),
yielding the wait, the query parameters and the state with the recorded
request time. -/
def fetch_articles (s : ClientState) (now nowReq : ℝ) (argLastid argSize : Option ℤ) :
    Except Unit (ℝ × LastidParam × ℝ × ClientState) :=
  match waitCheck s now with
  | .error e => .error e
  | .ok w =>
    .ok (w, lastidParam argLastid s.lastid, effSize argSize s.num_art,
         { s with last_request_time := some nowReq })

/-- One full call of the async SafefeedClient.get_articles (aio.py lines
98-150): _fetch_articles then the ingest stage on the awaited body. -/
def get_articles (s : ClientState) (now nowReq : ℝ) (argLastid argSize : Option ℤ)
    (body : Option FeedResponse) :
    Except Unit (ℝ × LastidParam × ℝ × ClientState × Option FeedResponse) :=
  match fetch_articles s now nowReq argLastid argSize with
  | .error e => .error e
  | .ok (w, pl, ps, s1) =>
    let r := ingest s1 body
    .ok (w, pl, ps, r.1, r.2)

end

end Async

end Safefeed

namespace Safefeed

/-- Claim C4: the pre-fetch wait is 0 on the first pull (no recorded last
request time); 0 whenever the client is behind (last observed count
strictly greater than 0.95 times num_art) regardless of elapsed time;
and otherwise max 0 ((lastRequestTime + interval) - now). -/
theorem C4_wait_duration :
    (∀ (s : ClientState) (now : ℝ), s.last_request_time = none →
       waitCheck s now = .ok 0) ∧
    (∀ (s : ClientState) (now : ℝ) (n : ℤ), s.last_num = some n →
       (n : ℝ) > s.num_art * 0.95 → waitCheck s now = .ok 0) ∧
    (∀ (s : ClientState) (now t : ℝ) (n : ℤ), s.last_request_time = some t →
       s.last_num = some n → ¬((n : ℝ) > s.num_art * 0.95) →
       waitCheck s now = .ok (max 0 (t + s.interval - now))) := by
  refine ⟨?_, ?_, ?_⟩
  · intro s now h
    unfold waitCheck target
    rw [h]
    simp
  · intro s now n h hb
    unfold waitCheck
    split
    · rw [h]
      simp only
      rw [if_pos hb]
    · rfl
  · intro s now t n ht hn hnb
    have htarget : target s now = t + s.interval := by
      unfold target; rw [ht]
    unfold waitCheck
    split
    · rw [hn]
      simp only
      rw [if_neg hnb, htarget]
      have h1 : (0 : ℝ) ≤ t + s.interval - now := by
        have := ‹now < target s now›
        rw [htarget] at this
        linarith
      rw [max_eq_right h1]
    · have h2 : t + s.interval - now ≤ 0 := by
        have := ‹¬ now < target s now›
        rw [htarget] at this
        push_neg at this
        linarith
      rw [max_eq_left h2]

theorem C4_wait_duration_witness :
    waitCheck ⟨60, 500, none, none, none, none, true⟩ 5 = .ok 0 ∧
    waitCheck ⟨60, 500, none, none, some 490, some 0, true⟩ 5 = .ok 0 ∧
    waitCheck ⟨60, 500, none, none, some 10, some 0, true⟩ 5 =
      .ok (max 0 (0 + 60 - 5)) := by
  refine ⟨C4_wait_duration.1 _ 5 rfl, C4_wait_duration.2.1 _ 5 490 rfl (by norm_num),
    C4_wait_duration.2.2 _ 5 0 10 rfl rfl (by norm_num)⟩

/-- Claim C5: for every client with autoconfig set, after an update
performed with the behind test false, the new batch size is at least 50
and the new interval is at most 900. -/
theorem C5_floor_cap (s : ClientState) (data : FeedResponse) (sr : SearchResult)
    (p docs : ℤ) (h1 : data.searchresult = some sr) (h2 : sr.search_start = some p)
    (h3 : sr.documents = some docs) (h4 : s.autoconfig = true)
    (h5 : ¬((docs : ℝ) > s.num_art * 0.95)) :
    50 ≤ (ingest s (some data)).1.num_art ∧ (ingest s (some data)).1.interval ≤ 900 := by
  obtain ⟨osr⟩ := data
  obtain rfl : osr = some sr := h1
  obtain ⟨oss, od, oer⟩ := sr
  obtain rfl : oss = some p := h2
  obtain rfl : od = some docs := h3
  unfold ingest
  simp only
  rw [if_pos ⟨h4, h5⟩]
  exact ⟨le_max_right _ _, min_le_right _ _⟩

theorem C5_floor_cap_witness :
    50 ≤ (ingest ⟨60, 500, none, none, none, none, true⟩
            (some ⟨some ⟨some 7, some 40, none⟩⟩)).1.num_art ∧
    (ingest ⟨60, 500, none, none, none, none, true⟩
       (some ⟨some ⟨some 7, some 40, none⟩⟩)).1.interval ≤ 900 :=
  C5_floor_cap _ _ _ 7 40 rfl rfl rfl rfl (by norm_num)

/-- Claim C6: after any successful ingest (searchresult and search_start
present), the stored cursor equals the server-reported search_start of
that response, whatever the cursor held before. -/
theorem C6_cursor_advance (s : ClientState) (data : FeedResponse) (sr : SearchResult)
    (p : ℤ) (h1 : data.searchresult = some sr) (h2 : sr.search_start = some p) :
    (ingest s (some data)).1.lastid = some p := by
  obtain ⟨osr⟩ := data
  obtain rfl : osr = some sr := h1
  obtain ⟨oss, od, oer⟩ := sr
  obtain rfl : oss = some p := h2
  cases od with
  | none => rfl
  | some docs =>
    unfold ingest
    simp only
    split
    · rfl
    · rfl

theorem C6_cursor_advance_witness :
    (ingest ⟨60, 500, some 123, none, none, none, true⟩
       (some ⟨some ⟨some 777, some 40, none⟩⟩)).1.lastid = some 777 :=
  C6_cursor_advance _ _ _ 777 rfl rfl

/-- Claim C7: the synchronous and asynchronous clients implement the
same core algorithm: from identical prior state, clock readings,
arguments and raw body, both get_articles compute the same wait
decision, query parameters, resulting state and returned value. -/
theorem C7_sync_async_equal (s : ClientState) (now nowReq : ℝ)
    (argLastid argSize : Option ℤ) (body : Option FeedResponse) :
    Async.get_articles s now nowReq argLastid argSize body =
      get_articles s now nowReq argLastid argSize body := by
  have hw : Async.waitCheck s now = waitCheck s now := rfl
  have hi : Async.ingest = ingest := rfl
  unfold Async.get_articles Async.fetch_articles get_articles
  rw [hw, hi]
  cases waitCheck s now with
  | error e => rfl
  | ok w => rfl

end Safefeed

namespace Safefeed

/-- Claim C1 counterexample: a decoded body whose searchresult has
search_start but no documents key is an ingest failure in the claim's
sense (required field missing), yet the code mutates lastid (and
_last_num) before the KeyError is raised at the debug statement, and the
caught KeyError still ends in returning the decoded data, not None. -/
theorem C1_counterexample :
    (ingest ⟨60, 500, some 1, some 2, some 3, some 0, true⟩
        (some ⟨some ⟨some 42, none, none⟩⟩)).1.lastid ≠ some 1 ∧
    (ingest ⟨60, 500, some 1, some 2, some 3, some 0, true⟩
        (some ⟨some ⟨some 42, none, none⟩⟩)).2 ≠ none := by
  constructor
  · simp [ingest]
  · simp [ingest]

/-- Claim C1 as amended: a pull whose body is not decodable as JSON
leaves every state field other than the recorded request time unchanged
and returns None, so the next pull reuses the same lastid and num_art; a
decoded body with searchresult or searchresult.search_start missing also
leaves the state unchanged but returns the decoded data rather than an
absence result; a decoded body with search_start present and documents
missing first overwrites lastid and _last_num and then returns the
decoded data. -/
theorem C1_failure_isolation :
    (∀ (s : ClientState) (now nowReq : ℝ) (argLastid argSize : Option ℤ) (w : ℝ),
       waitCheck s now = .ok w →
       get_articles s now nowReq argLastid argSize none =
         .ok (w, lastidParam argLastid s.lastid, effSize argSize s.num_art,
              { s with last_request_time := some nowReq }, none)) ∧
    (∀ (s : ClientState) (data : FeedResponse), data.searchresult = none →
       ingest s (some data) = (s, some data)) ∧
    (∀ (s : ClientState) (data : FeedResponse) (sr : SearchResult),
       data.searchresult = some sr → sr.search_start = none →
       ingest s (some data) = (s, some data)) ∧
    (∀ (s : ClientState) (data : FeedResponse) (sr : SearchResult) (p : ℤ),
       data.searchresult = some sr → sr.search_start = some p → sr.documents = none →
       ingest s (some data) =
         ({ s with lastid := some p, last_num := some 0 }, some data)) := by
  refine ⟨?_, ?_, ?_, ?_⟩
  · intro s now nowReq argLastid argSize w hw
    unfold get_articles
    rw [hw]
    rfl
  · intro s data h
    obtain ⟨osr⟩ := data
    obtain rfl : osr = none := h
    rfl
  · intro s data sr h1 h2
    obtain ⟨osr⟩ := data
    obtain rfl : osr = some sr := h1
    obtain ⟨oss, od, oer⟩ := sr
    obtain rfl : oss = none := h2
    rfl
  · intro s data sr p h1 h2 h3
    obtain ⟨osr⟩ := data
    obtain rfl : osr = some sr := h1
    obtain ⟨oss, od, oer⟩ := sr
    obtain rfl : oss = some p := h2
    obtain rfl : od = none := h3
    rfl

theorem C1_failure_isolation_witness :
    get_articles ⟨60, 500, some 1, some 2, some 3, some 0, true⟩ 100 100 none none none =
      .ok (0, lastidParam none (some 1), effSize none 500,
           ⟨60, 500, some 1, some 2, some 3, some 100, true⟩, none) ∧
    ingest ⟨60, 500, some 1, some 2, some 3, some 0, true⟩ (some ⟨none⟩) =
      (⟨60, 500, some 1, some 2, some 3, some 0, true⟩, some ⟨none⟩) ∧
    ingest ⟨60, 500, some 1, some 2, some 3, some 0, true⟩
        (some ⟨some ⟨none, some 4, none⟩⟩) =
      (⟨60, 500, some 1, some 2, some 3, some 0, true⟩, some ⟨some ⟨none, some 4, none⟩⟩) ∧
    ingest ⟨60, 500, some 1, some 2, some 3, some 0, true⟩
        (some ⟨some ⟨some 9, none, none⟩⟩) =
      (⟨60, 500, some 9, some 2, some 0, some 0, true⟩, some ⟨some ⟨some 9, none, none⟩⟩) := by
  refine ⟨C1_failure_isolation.1 _ 100 100 none none 0 ?_,
    C1_failure_isolation.2.1 _ _ rfl,
    C1_failure_isolation.2.2.1 _ _ ⟨none, some 4, none⟩ rfl rfl,
    C1_failure_isolation.2.2.2 _ _ ⟨some 9, none, none⟩ 9 rfl rfl rfl⟩
  unfold waitCheck target
  norm_num

/-- Claim C2 counterexample: the constructor tests the overrides for
truthiness, not for being supplied, so explicitly passing interval = 0
leaves _autoconfig = true. -/
theorem C2_counterexample : (init (some 0) none none none).autoconfig = true := rfl

/-- Shared helper: with _autoconfig unset, one ingest never touches
interval, num_art or expected_rate, and never sets _autoconfig. -/
theorem ingest_config_frozen (s : ClientState) (b : Option FeedResponse)
    (h : s.autoconfig = false) :
    (ingest s b).1.interval = s.interval ∧ (ingest s b).1.num_art = s.num_art ∧
    (ingest s b).1.expected_rate = s.expected_rate ∧
    (ingest s b).1.autoconfig = false := by
  cases b with
  | none => exact ⟨rfl, rfl, rfl, h⟩
  | some data =>
    obtain ⟨osr⟩ := data
    cases osr with
    | none => exact ⟨rfl, rfl, rfl, h⟩
    | some sr =>
      obtain ⟨oss, od, oer⟩ := sr
      cases oss with
      | none => exact ⟨rfl, rfl, rfl, h⟩
      | some p =>
        cases od with
        | none => exact ⟨rfl, rfl, rfl, h⟩
        | some docs =>
          unfold ingest
          simp only
          rw [if_neg]
          · exact ⟨rfl, rfl, rfl, h⟩
          · rintro ⟨h1, -⟩
            simp [h] at h1

/-- Claim C2 as amended: whenever any of interval, num_art or
expected_rate is supplied with a truthy (nonzero, non-None) value at
construction, _autoconfig is false; and from any state with _autoconfig
false, no sequence of ingests ever changes interval, num_art or
expected_rate. -/
theorem C2_explicit_overrides :
    (∀ (i l n : Option ℤ) (e : Option ℝ),
       truthyZ i = true ∨ truthyZ n = true ∨ truthyR e = true →
       (init i l n e).autoconfig = false) ∧
    (∀ (s : ClientState) (bodies : List (Option FeedResponse)), s.autoconfig = false →
       (ingestAll s bodies).interval = s.interval ∧
       (ingestAll s bodies).num_art = s.num_art ∧
       (ingestAll s bodies).expected_rate = s.expected_rate) := by
  constructor
  · intro i l n e h
    unfold init
    rcases h with h | h | h <;> simp [h]
  · intro s bodies
    induction bodies generalizing s with
    | nil => intro _; exact ⟨rfl, rfl, rfl⟩
    | cons b rest ih =>
      intro h
      obtain ⟨h1, h2, h3, h4⟩ := ingest_config_frozen s b h
      obtain ⟨g1, g2, g3⟩ := ih _ h4
      exact ⟨g1.trans h1, g2.trans h2, g3.trans h3⟩

theorem C2_explicit_overrides_witness :
    (init (some 7) none none none).autoconfig = false ∧
    ((ingestAll ⟨10, 200, none, some 3, none, none, false⟩
        [some ⟨some ⟨some 5, some 40, none⟩⟩,
         some ⟨some ⟨some 6, some 41, some 2⟩⟩]).interval = 10 ∧
     (ingestAll ⟨10, 200, none, some 3, none, none, false⟩
        [some ⟨some ⟨some 5, some 40, none⟩⟩,
         some ⟨some ⟨some 6, some 41, some 2⟩⟩]).num_art = 200 ∧
     (ingestAll ⟨10, 200, none, some 3, none, none, false⟩
        [some ⟨some ⟨some 5, some 40, none⟩⟩,
         some ⟨some ⟨some 6, some 41, some 2⟩⟩]).expected_rate = some 3) :=
  ⟨C2_explicit_overrides.1 (some 7) none none none (Or.inl rfl),
   C2_explicit_overrides.2 ⟨10, 200, none, some 3, none, none, false⟩ _ rfl⟩

/-- A freshly constructed client with no overrides. -/
noncomputable def freshClient : ClientState := init none none none none

/-- The state after a first pull whose body was undecodable: only the
request time was recorded; _last_num is still unset. -/
noncomputable def afterFailedFirstPull (t : ℝ) : ClientState :=
  { freshClient with last_request_time := some t }

/-- Claim C9: _last_num is assigned only inside a successful ingest and
has no initial value, so after a first pull whose ingest fails
(undecodable body), a second pull that begins before interval seconds
have elapsed evaluates is_behind on the unset attribute and raises
AttributeError instead of returning a result or an absence signal. -/
theorem C9_attribute_error :
    (∀ (t1 t1' : ℝ),
       get_articles freshClient t1 t1' none none none =
         .ok (0, LastidParam.question, 500, afterFailedFirstPull t1', none)) ∧
    (∀ (t1' t2 t2' : ℝ) (aL aS : Option ℤ) (body : Option FeedResponse),
       t2 < t1' + 60 →
       get_articles (afterFailedFirstPull t1') t2 t2' aL aS body = .error ()) := by
  constructor
  · intro t1 t1'
    have hw : waitCheck freshClient t1 = .ok 0 := by
      unfold waitCheck target freshClient init
      norm_num
    unfold get_articles
    rw [hw]
    simp only [ingest, afterFailedFirstPull, freshClient, init, lastidParam,
      effLastid, effSize, truthyZ, truthyR, Option.getD_none]
    norm_num
  · intro t1' t2 t2' aL aS body h
    have hlt : t2 < target (afterFailedFirstPull t1') t2 := by
      unfold target afterFailedFirstPull freshClient init
      simp only [Option.getD_none]
      push_cast
      linarith
    have hw : waitCheck (afterFailedFirstPull t1') t2 = .error () := by
      unfold waitCheck
      rw [if_pos hlt]
      simp [afterFailedFirstPull, freshClient, init]
    unfold get_articles
    rw [hw]

theorem C9_attribute_error_witness :
    get_articles freshClient 0 0 none none none =
      .ok (0, LastidParam.question, 500, afterFailedFirstPull 0, none) ∧
    get_articles (afterFailedFirstPull 0) 30 30 none none
      (some ⟨some ⟨some 1, some 1, none⟩⟩) = .error () :=
  ⟨C9_attribute_error.1 0 0,
   C9_attribute_error.2 0 30 30 none none _ (by norm_num)⟩

end Safefeed

namespace Safefeed

/-- Claim C10 counterexample: with an explicit argument lastid = 0 and a
stored lastid of None, the code sends the sentinel question mark even
though the argument is not None, so the sentinel is not sent exactly
when both the argument and the stored lastid are None. -/
theorem C10_counterexample :
    lastidParam (some 0) none = LastidParam.question ∧ (some 0 : Option ℤ) ≠ none :=
  ⟨rfl, by simp⟩

/-- Claim C10 as amended: an explicit argument of lastid = 0 or size = 0
is ignored in favour of the stored cursor/batch size, and the sentinel
question mark is sent as the lastid query parameter exactly when the
argument is None or 0 and the stored lastid is None. -/
theorem C10_truthiness_merge :
    (∀ (st : Option ℤ), effLastid (some 0) st = st ∧ effLastid none st = st) ∧
    (∀ (st : ℝ), effSize (some 0) st = st ∧ effSize none st = st) ∧
    (∀ (a st : Option ℤ),
       lastidParam a st = LastidParam.question ↔
         ((a = none ∨ a = some 0) ∧ st = none)) := by
  refine ⟨fun st => ⟨rfl, rfl⟩, fun st => ⟨rfl, rfl⟩, ?_⟩
  intro a st
  cases a with
  | none => cases st <;> simp [lastidParam, effLastid]
  | some x =>
    by_cases hx : x = 0
    · subst hx
      cases st <;> simp [lastidParam, effLastid]
    · cases st <;> simp [lastidParam, effLastid, hx]

theorem C10_truthiness_merge_witness :
    effLastid (some 0) (some 5) = some 5 ∧ effSize (some 0) 77 = 77 ∧
    lastidParam (some 0) none = LastidParam.question :=
  ⟨(C10_truthiness_merge.1 (some 5)).1, (C10_truthiness_merge.2.1 77).1,
   (C10_truthiness_merge.2.2 (some 0) none).mpr ⟨Or.inr rfl, rfl⟩⟩

/-- Shared helper: Python `x or y` is positive when x is nonnegative and
y is positive. -/
theorem pyOr_pos {x y : ℝ} (hx : 0 ≤ x) (hy : 0 < y) : 0 < pyOr x y := by
  unfold pyOr
  split
  · exact hy
  · exact lt_of_le_of_ne hx (Ne.symm (by assumption))

/-- Shared helper: Python `x or y` on an optional x is positive when x
is nonnegative whenever present and y is positive. -/
theorem pyOrO_pos {x : Option ℝ} {y : ℝ} (hx : ∀ v, x = some v → 0 ≤ v)
    (hy : 0 < y) : 0 < pyOrO x y := by
  cases x with
  | none => exact hy
  | some v => exact pyOr_pos (hx v rfl) hy

/-- Claim C8: whenever the autoconfig update runs, the expected_rate
value fed to the square root in the interval and num_art formulas is the
just-stored newRate, which is strictly positive - hence never exactly
0 - provided the previous rate and a server-reported rate are
nonnegative when present, the document count is nonnegative and the
interval is positive.  The previous rate may be unset (the very first
observation): the default-40 fallback covers it. -/
theorem C8_sqrt_input_positive (s : ClientState) (data : FeedResponse)
    (sr : SearchResult) (p docs : ℤ)
    (h1 : data.searchresult = some sr) (h2 : sr.search_start = some p)
    (h3 : sr.documents = some docs) (h4 : s.autoconfig = true)
    (h5 : ¬((docs : ℝ) > s.num_art * 0.95))
    (hprev : ∀ v, s.expected_rate = some v → 0 ≤ v)
    (hserver : ∀ v, sr.expected_rate = some v → 0 ≤ v)
    (hint : 0 < s.interval) (hdocs : 0 ≤ docs) :
    0 < newRate s.expected_rate s.interval sr.expected_rate docs ∧
    (ingest s (some data)).1.expected_rate =
      some (newRate s.expected_rate s.interval sr.expected_rate docs) ∧
    (ingest s (some data)).1.interval =
      min (60 / Real.sqrt (newRate s.expected_rate s.interval sr.expected_rate docs)) 900 ∧
    (ingest s (some data)).1.num_art =
      max (120 * Real.sqrt (newRate s.expected_rate s.interval sr.expected_rate docs)) 50 := by
  have hpos : 0 < newRate s.expected_rate s.interval sr.expected_rate docs := by
    unfold newRate
    have hB : 0 < pyOrO s.expected_rate 40 := pyOrO_pos hprev (by norm_num)
    have hinner : 0 ≤ (if docs = 0 then 0 else (docs : ℝ) / s.interval) := by
      split
      · exact le_refl 0
      · have : (0 : ℝ) ≤ (docs : ℝ) := by exact_mod_cast hdocs
        positivity
    have hsample :
        0 < pyOrO sr.expected_rate
            (pyOr (if docs = 0 then 0 else (docs : ℝ) / s.interval)
              (pyOrO s.expected_rate 40)) :=
      pyOrO_pos hserver (pyOr_pos hinner hB)
    nlinarith
  refine ⟨hpos, ?_⟩
  obtain ⟨osr⟩ := data
  obtain rfl : osr = some sr := h1
  obtain ⟨oss, od, oer⟩ := sr
  obtain rfl : oss = some p := h2
  obtain rfl : od = some docs := h3
  unfold ingest
  simp only
  rw [if_pos ⟨h4, h5⟩]
  exact ⟨rfl, rfl, rfl⟩

theorem C8_sqrt_input_positive_witness :
    0 < newRate none 60 none 40 ∧
    (ingest ⟨60, 500, none, none, none, none, true⟩
        (some ⟨some ⟨some 7, some 40, none⟩⟩)).1.expected_rate =
      some (newRate none 60 none 40) ∧
    (ingest ⟨60, 500, none, none, none, none, true⟩
        (some ⟨some ⟨some 7, some 40, none⟩⟩)).1.interval =
      min (60 / Real.sqrt (newRate none 60 none 40)) 900 ∧
    (ingest ⟨60, 500, none, none, none, none, true⟩
        (some ⟨some ⟨some 7, some 40, none⟩⟩)).1.num_art =
      max (120 * Real.sqrt (newRate none 60 none 40)) 50 :=
  C8_sqrt_input_positive ⟨60, 500, none, none, none, none, true⟩
    ⟨some ⟨some 7, some 40, none⟩⟩ ⟨some 7, some 40, none⟩ 7 40
    rfl rfl rfl rfl (by norm_num) (fun v h => Option.noConfusion h)
    (fun v h => Option.noConfusion h) (by norm_num) (by norm_num)

end Safefeed

namespace Safefeed

/-- Shared helper: full evaluation of the scenario - no overrides, first
batch of 40 documents, no server rate, stored interval 60. -/
theorem scenario_state_eval :
    (ingest freshClient (some ⟨some ⟨some 7, some 40, none⟩⟩)).1 =
      ⟨min (60 / Real.sqrt (541 / 15)) 900, max (120 * Real.sqrt (541 / 15)) 50,
       some 7, some (541 / 15), some 40, none, true⟩ := by
  have hE : newRate none 60 none 40 = 541 / 15 := by
    unfold newRate pyOrO pyOr
    norm_num
  unfold freshClient init ingest
  norm_num [truthyZ, truthyR, Option.getD_none, hE]

/-- Shared helper: rational bounds on the square root of 541/15. -/
theorem sqrt_541_15_bounds :
    6.0055 < Real.sqrt (541 / 15) ∧ Real.sqrt (541 / 15) < 6.0056 :=
  ⟨(Real.lt_sqrt (by norm_num)).mpr (by norm_num),
   (Real.sqrt_lt' (by norm_num)).mpr (by norm_num)⟩

/-- Claim C3 counterexample: in the claim's scenario (no overrides,
first batch of 40 documents, no server rate, interval 60) the stored
expected_rate is exactly 541/15 = 36.0666..., which is not 36.07; and
with a server-reported rate present but equal to 0 the code, contrary to
the sample = server rate clause, falls through by truthiness to 40/60
and again stores 541/15 rather than 0.9 * 40 + 0.1 * 0 = 36. -/
theorem C3_counterexample :
    ((ingest freshClient (some ⟨some ⟨some 7, some 40, none⟩⟩)).1.expected_rate =
        some (541 / 15 : ℝ) ∧ (541 / 15 : ℝ) ≠ 36.07) ∧
    ((ingest freshClient (some ⟨some ⟨some 7, some 40, some 0⟩⟩)).1.expected_rate =
        some (541 / 15 : ℝ) ∧ (541 / 15 : ℝ) ≠ 36) := by
  refine ⟨⟨?_, by norm_num⟩, ?_, by norm_num⟩
  · rw [scenario_state_eval]
  · unfold freshClient init ingest
    norm_num [truthyZ, truthyR, Option.getD_none, newRate, pyOrO, pyOr]

/-- Claim C3 as amended: when the autoconfig update runs, the sample is
the server-reported expected_rate when present and nonzero; otherwise
observedCount / interval when observedCount is nonzero; otherwise the
previous expected_rate defaulted to 40 (the pyOrO prev 40 merge, which
is also the 0.9-weighted previous value); the new expected_rate is
0.9 * (previous or 40) + 0.1 * sample, the new interval is
min (60 / sqrt expected_rate) 900 and the new num_art is
max (120 * sqrt expected_rate) 50.  In the scenario the stored
expected_rate is exactly 541/15 = 36.0666..., the new interval lies
strictly between 9.99 and 10, and the new num_art lies strictly between
720.6 and 720.7. -/
theorem C3_autoconfig_update :
    (∀ (prev : Option ℝ) (itv r : ℝ) (docs : ℤ), r ≠ 0 →
       newRate prev itv (some r) docs = 0.9 * pyOrO prev 40 + 0.1 * r) ∧
    (∀ (prev : Option ℝ) (itv : ℝ) (server : Option ℝ) (docs : ℤ),
       (server = none ∨ server = some 0) → docs ≠ 0 → itv ≠ 0 →
       newRate prev itv server docs =
         0.9 * pyOrO prev 40 + 0.1 * ((docs : ℝ) / itv)) ∧
    (∀ (prev : Option ℝ) (itv : ℝ) (server : Option ℝ),
       (server = none ∨ server = some 0) →
       newRate prev itv server 0 = 0.9 * pyOrO prev 40 + 0.1 * pyOrO prev 40) ∧
    (∀ (s : ClientState) (data : FeedResponse) (sr : SearchResult) (p docs : ℤ),
       data.searchresult = some sr → sr.search_start = some p →
       sr.documents = some docs → s.autoconfig = true →
       ¬((docs : ℝ) > s.num_art * 0.95) →
       (ingest s (some data)).1.expected_rate =
         some (newRate s.expected_rate s.interval sr.expected_rate docs) ∧
       (ingest s (some data)).1.interval =
         min (60 / Real.sqrt (newRate s.expected_rate s.interval sr.expected_rate docs)) 900 ∧
       (ingest s (some data)).1.num_art =
         max (120 * Real.sqrt (newRate s.expected_rate s.interval sr.expected_rate docs)) 50) ∧
    ((ingest freshClient (some ⟨some ⟨some 7, some 40, none⟩⟩)).1.expected_rate =
        some (541 / 15 : ℝ) ∧
     9.99 < (ingest freshClient (some ⟨some ⟨some 7, some 40, none⟩⟩)).1.interval ∧
     (ingest freshClient (some ⟨some ⟨some 7, some 40, none⟩⟩)).1.interval < 10 ∧
     720.6 < (ingest freshClient (some ⟨some ⟨some 7, some 40, none⟩⟩)).1.num_art ∧
     (ingest freshClient (some ⟨some ⟨some 7, some 40, none⟩⟩)).1.num_art < 720.7) := by
  obtain ⟨hlo, hhi⟩ := sqrt_541_15_bounds
  have hs0 : 0 < Real.sqrt (541 / 15) := by linarith
  refine ⟨?_, ?_, ?_, ?_, ?_, ?_, ?_, ?_, ?_⟩
  · intro prev itv r docs hr
    simp only [newRate, pyOrO]
    unfold pyOr
    rw [if_neg hr]
  · intro prev itv server docs hserver hd hitv
    have hq : (docs : ℝ) / itv ≠ 0 :=
      div_ne_zero (Int.cast_ne_zero.mpr hd) hitv
    rcases hserver with rfl | rfl
    · simp only [newRate, pyOrO]
      rw [if_neg hd]
      unfold pyOr
      rw [if_neg hq]
    · simp only [newRate, pyOrO]
      unfold pyOr
      rw [if_pos rfl, if_neg hd, if_neg hq]
  · intro prev itv server hserver
    rcases hserver with rfl | rfl <;> simp [newRate, pyOrO, pyOr]
  · intro s data sr p docs h1 h2 h3 h4 h5
    obtain ⟨osr⟩ := data
    obtain rfl : osr = some sr := h1
    obtain ⟨oss, od, oer⟩ := sr
    obtain rfl : oss = some p := h2
    obtain rfl : od = some docs := h3
    unfold ingest
    simp only
    rw [if_pos ⟨h4, h5⟩]
    exact ⟨rfl, rfl, rfl⟩
  · rw [scenario_state_eval]
  · rw [scenario_state_eval]
    show 9.99 < min (60 / Real.sqrt (541 / 15)) 900
    rw [min_eq_left (by rw [div_le_iff₀ hs0]; nlinarith)]
    rw [lt_div_iff₀ hs0]
    nlinarith
  · rw [scenario_state_eval]
    show min (60 / Real.sqrt (541 / 15)) 900 < 10
    rw [min_eq_left (by rw [div_le_iff₀ hs0]; nlinarith)]
    rw [div_lt_iff₀ hs0]
    nlinarith
  · rw [scenario_state_eval]
    show (720.6 : ℝ) < max (120 * Real.sqrt (541 / 15)) 50
    rw [max_eq_left (by nlinarith)]
    nlinarith
  · rw [scenario_state_eval]
    show max (120 * Real.sqrt (541 / 15)) 50 < 720.7
    rw [max_eq_left (by nlinarith)]
    nlinarith

theorem C3_autoconfig_update_witness :
    newRate none 60 (some 5) 3 = 0.9 * pyOrO none 40 + 0.1 * 5 ∧
    newRate none 60 none 3 = 0.9 * pyOrO none 40 + 0.1 * (((3 : ℤ) : ℝ) / 60) ∧
    newRate none 60 none 0 = 0.9 * pyOrO none 40 + 0.1 * pyOrO none 40 ∧
    (ingest ⟨60, 500, none, none, none, none, true⟩
        (some ⟨some ⟨some 7, some 40, none⟩⟩)).1.expected_rate =
      some (newRate none 60 none 40) :=
  ⟨C3_autoconfig_update.1 none 60 5 3 (by norm_num),
   C3_autoconfig_update.2.1 none 60 none 3 (Or.inl rfl) (by norm_num) (by norm_num),
   C3_autoconfig_update.2.2.1 none 60 none (Or.inl rfl),
   (C3_autoconfig_update.2.2.2.1 ⟨60, 500, none, none, none, none, true⟩
      ⟨some ⟨some 7, some 40, none⟩⟩ ⟨some 7, some 40, none⟩ 7 40
      rfl rfl rfl rfl (by norm_num)).1⟩

end Safefeed
